import Mathlib

/-!
# Verification of the stock-analyzer request handler

Shallow embedding of `src/app.py` (a single-file Flask backend).  The
handler `get_stock_info` (app.py lines 31-89) is modelled as a pure
function of the parsed JSON request body and the outcomes of the two
outbound calls (the Tiingo market-data gateway and the Gemini generative
gateway).  The model returns a `Trace` recording which outbound calls
were issued (with their request data), and the handler's result: either
a Flask response or a Python exception escaping the handler (possible,
because lines 34-37 of app.py run outside the `try` block).

JSON numbers are modelled as rationals; Python's `str()` rendering of a
number is modelled by `pyStr` (the exact decimal spelling of a float is
immaterial to every claim, which only moves rendered values around).
-/

/-- A parsed JSON value, as produced by Flask's `request.json` and
`response.json()`.  Objects are association lists with distinct keys
(Python dicts). -/
inductive JVal where
  | null
  | bool (b : Bool)
  | num (q : ℚ)
  | str (s : String)
  | arr (elems : List JVal)
  | obj (fields : List (String × JVal))

/-- Python truthiness (`if not x`) for the modelled JSON values:
`None`, `False`, `0`, `""`, `[]`, `{}` are falsy, everything else truthy. -/
def pyTruthy : JVal → Bool
  | .null => false
  | .bool b => b
  | .num q => if q = 0 then false else true
  | .str s => s != ""
  | .arr xs => !xs.isEmpty
  | .obj fs => !fs.isEmpty

/-- Python `str()` of a modelled JSON value, as used by f-string
interpolation.  Container rendering is abstracted to a fixed token (no
claim interpolates a container); numbers render as `num` or `num/den`
(the exact decimal spelling of a Python float is immaterial here). -/
def pyStr : JVal → String
  | .null => "None"
  | .bool true => "True"
  | .bool false => "False"
  | .num q => if q.den = 1 then toString q.num else toString q.num ++ "/" ++ toString q.den
  | .str s => s
  | .arr _ => "[...]"
  | .obj _ => "\x7b...\x7d"

/-- `d.get(key, default)` on a Python dict modelled as an association list. -/
def dictGetD (fields : List (String × JVal)) (key : String) (dflt : JVal) : JVal :=
  (List.lookup key fields).getD dflt

/-- Python `s.split(c)` for a one-character separator, on the character list. -/
def pySplitChar (c : Char) : List Char → List (List Char)
  | [] => [[]]
  | x :: xs =>
    match pySplitChar c xs with
    | [] => [[]]
    | h :: t => if x = c then [] :: h :: t else (x :: h) :: t

/-- Python `s.split(c)[0]`: the part of `s` before the first occurrence of
`c` (all of `s` when `c` does not occur). -/
def pySplitHead (s : String) (c : Char) : String :=
  String.mk ((pySplitChar c s.data).headD [])

/-- Outcome of `requests.get(tiingo_url)` followed by `.json()`:
either an HTTP response (with `body = none` when the payload is not
valid JSON, so that `.json()` raises), or a transport-level exception
raised by `requests.get` itself. -/
inductive TiingoOutcome where
  | response (status : Nat) (body : Option JVal)
  | transportError (msg : String)

/-- Outcome of `model.generate_content(prompt)` followed by `.text`:
the returned text, or an exception (transport failure, blocked
response, ...) with its `str()`. -/
inductive GeminiOutcome where
  | text (t : String)
  | failure (msg : String)

/-- An outbound HTTP request as issued by the handler.  `requests.get`
is called with the URL alone (app.py line 45): method GET, no
caller-supplied headers (in particular no Authorization header). -/
structure OutboundRequest where
  method : String
  url : String
  headers : List (String × String)

/-- A Flask response: status code and JSON body (`jsonify(...)`). -/
structure HttpResponse where
  status : Nat
  body : JVal

/-- A Python exception escaping the handler (uncaught). -/
inductive PyExn where
  | attributeError (attr : String)

/-- Everything observable about one handler invocation: the market-data
request (if issued), the prompt sent to the generative gateway (if that
call was issued), and the handler's result - a response, or an
exception that escaped the handler. -/
structure Trace where
  tiingoRequest : Option OutboundRequest
  geminiPrompt : Option String
  response : Except PyExn HttpResponse

/-- app.py line 41: the Tiingo URL, token embedded as a query parameter. -/
def tiingoUrlFor (key : String) (symbol : JVal) : String :=
  "https://api.tiingo.com/tiingo/daily/" ++ (pyStr symbol ++ ("/prices?token=" ++ key))

/-- app.py line 37. -/
def missingSymbolMsg : String := "Stock symbol was not provided."

/-- app.py line 85. -/
def authFailMsg : String := "Authentication failed. Your Tiingo API key is invalid."

/-- app.py line 83. -/
def fetchFailMsg : String := "Failed to fetch stock data. Check the symbol or your API key."

/-- app.py line 50: the 404 message, f-string interpolating the symbol. -/
def noDataMsg (symbol : String) : String :=
  "No data found for symbol \x27" ++
    (symbol ++ "\x27. Please check the symbol (e.g., \x27AAPL\x27 or \x27TCS.NS\x27).")

/-- app.py line 89: the generic 500 message around `str(e)`. -/
def unexpectedMsg (e : String) : String :=
  "An unexpected error occurred: " ++ e

/-- `jsonify({"error": msg})`. -/
def errBody (msg : String) : JVal :=
  .obj [("error", .str msg)]

/-- `stock_data_list[0]` (app.py line 53) on an arbitrary JSON value:
first element of a list, first character of a string, `KeyError` on a
dict (JSON object keys are strings, never the int `0`), `TypeError`
otherwise.  The error carries the exception's `str()`. -/
def pyIndexZero : JVal → Except String JVal
  | .arr (x :: _) => .ok x
  | .arr [] => .error "list index out of range"
  | .str s =>
    match s.data with
    | c :: _ => .ok (.str (String.mk [c]))
    | [] => .error "string index out of range"
  | .obj _ => .error "KeyError: 0"
  | _ => .error "TypeError: object is not subscriptable"

/-- The literal prompt template of app.py lines 56-71 with the six
interpolation slots (symbol, date, close, high, low, volume); the
concatenation is right-nested so each interpolated piece is exposed. -/
def promptText (symbol dateS closeS highS lowS volumeS : String) : String :=
  "\n        Analyze the following stock data for the symbol \x27" ++
  (symbol ++
  ("\x27 and provide a detailed investment analysis.\n\n        Latest Data:\n        - Date: " ++
  (dateS ++
  ("\n        - Close Price: " ++
  (closeS ++
  ("\n        - High: " ++
  (highS ++
  ("\n        - Low: " ++
  (lowS ++
  ("\n        - Volume: " ++
  (volumeS ++
  ("\n\n        Structure your response in markdown with these sections:\n        1.  **Performance Summary:** Briefly summarize the day\x27s performance.\n        2.  **Market Context:** How does this data fit into the stock\x27s recent history and the broader market?\n        3.  **Investment Recommendation:** Give a clear, actionable recommendation (e.g., Strong Buy, Hold, Sell).\n        4.  **Risk Analysis:** What are the key risks an investor should consider?\n        "))))))))))))

/-- app.py lines 56-71: build the prompt from the symbol and the first
record.  `stock_data.get(...)` raises `AttributeError` when
`stock_data` is not a dict; `.split` raises when the date value is not
a string.  Both are caught downstream by the generic handler. -/
def buildPrompt (symbol : JVal) (stock_data : JVal) : Except String String :=
  match stock_data with
  | .obj rec =>
    match dictGetD rec "date" (.str "N/A") with
    | .str ds =>
      .ok (promptText (pyStr symbol) (pySplitHead ds 'T')
        (pyStr (dictGetD rec "close" (.str "N/A")))
        (pyStr (dictGetD rec "high" (.str "N/A")))
        (pyStr (dictGetD rec "low" (.str "N/A")))
        (pyStr (dictGetD rec "volume" (.str "N/A"))))
    | _ => .error "AttributeError: object has no attribute split"
  | _ => .error "AttributeError: object has no attribute get"

/-- app.py lines 31-89, `get_stock_info`.  Parameters: the Tiingo API
key, the parsed JSON request body, and the outcomes of the two outbound
calls.  Control flow follows the source line by line:
line 34-35 `data.get("symbol")` (AttributeError escapes the handler when
the body is not a JSON object, because the `try` only starts at line 43);
line 36 truthiness check; line 45 `requests.get`; line 46
`raise_for_status` (raises `HTTPError` exactly for 400 <= status < 600);
line 48 `.json()`; line 49 emptiness check; line 53 `[0]`; lines 56-71
prompt; line 73 Gemini call; lines 75-79 success body; lines 81-86
`HTTPError` branch; lines 87-89 generic `except Exception`. -/
def get_stock_info (key : String) (reqBody : JVal)
    (tiingo : TiingoOutcome) (gemini : GeminiOutcome) : Trace :=
  match reqBody with
  | .obj fields =>
    let symbol : JVal := (List.lookup "symbol" fields).getD .null
    if !(pyTruthy symbol) then
      ⟨none, none, .ok ⟨400, errBody missingSymbolMsg⟩⟩
    else
      let req : OutboundRequest := ⟨"GET", tiingoUrlFor key symbol, []⟩
      match tiingo with
      | .transportError msg =>
        ⟨some req, none, .ok ⟨500, errBody (unexpectedMsg msg)⟩⟩
      | .response status body =>
        if 400 ≤ status ∧ status < 600 then
          ⟨some req, none,
            .ok ⟨status, errBody (if status = 401 then authFailMsg else fetchFailMsg)⟩⟩
        else
          match body with
          | none =>
            ⟨some req, none,
              .ok ⟨500, errBody (unexpectedMsg "Expecting value: line 1 column 1 (char 0)")⟩⟩
          | some stock_data_list =>
            if !(pyTruthy stock_data_list) then
              ⟨some req, none, .ok ⟨404, errBody (noDataMsg (pyStr symbol))⟩⟩
            else
              match pyIndexZero stock_data_list with
              | .error e => ⟨some req, none, .ok ⟨500, errBody (unexpectedMsg e)⟩⟩
              | .ok stock_data =>
                match buildPrompt symbol stock_data with
                | .error e => ⟨some req, none, .ok ⟨500, errBody (unexpectedMsg e)⟩⟩
                | .ok prompt =>
                  match gemini with
                  | .failure msg =>
                    ⟨some req, some prompt, .ok ⟨500, errBody (unexpectedMsg msg)⟩⟩
                  | .text t =>
                    ⟨some req, some prompt,
                      .ok ⟨200, .obj [("symbol", symbol), ("stock_data", stock_data),
                        ("gemini_analysis", .str t)]⟩⟩
  | _ => ⟨none, none, .error (.attributeError "get")⟩

/-- Truthiness of `os.getenv(...)` (an `Optional[str]`): `None` and the
empty string are falsy. -/
def pyStrOptTruthy : Option String → Bool
  | none => false
  | some s => s != ""

/-- app.py lines 15-20, module initialization: read both keys from the
environment and raise `ValueError` (refusing to start) when either is
missing or empty. -/
def startupCheck (tiingoEnv geminiEnv : Option String) : Except String (String × String) :=
  if !(pyStrOptTruthy tiingoEnv) || !(pyStrOptTruthy geminiEnv) then
    .error "API keys for Tiingo or Gemini not found. Please check your .env file."
  else
    .ok (tiingoEnv.getD "", geminiEnv.getD "")

/-- `big` contains `small` as a contiguous substring. -/
def strContains (big small : String) : Prop :=
  ∃ l r, big = l ++ (small ++ r)

/-! ## Helper lemmas -/

lemma pySplitChar_head (c : Char) (l : List Char) :
    ∃ t, pySplitChar c l = l.takeWhile (fun x => x != c) :: t := by
  induction l with
  | nil => exact ⟨[], rfl⟩
  | cons x xs ih =>
    obtain ⟨t, ht⟩ := ih
    by_cases hx : x = c
    · subst hx
      refine ⟨xs.takeWhile (fun y => y != x) :: t, ?_⟩
      simp [pySplitChar, ht, List.takeWhile_cons]
    · refine ⟨t, ?_⟩
      simp [pySplitChar, ht, List.takeWhile_cons, hx, bne_iff_ne]

/-- `split('T')[0]` is exactly the prefix of the string before the first
occurrence of the separator. -/
lemma pySplitHead_eq_takeWhile (s : String) (c : Char) :
    pySplitHead s c = String.mk (s.data.takeWhile (fun x => x != c)) := by
  obtain ⟨t, ht⟩ := pySplitChar_head c s.data
  simp [pySplitHead, ht]

lemma takeWhile_of_all (p : Char → Bool) (l : List Char) (h : l.all p = true) :
    l.takeWhile p = l := by
  induction l with
  | nil => rfl
  | cons x xs ih =>
    rw [List.all_cons, Bool.and_eq_true] at h
    simp [List.takeWhile_cons, h.1, ih h.2]

/-- Whenever the symbol is truthy, `requests.get` is issued: a GET on the
Tiingo URL with no caller-supplied headers, whatever the gateway outcomes. -/
lemma tiingoRequest_of_truthy (k : String) (fields : List (String × JVal))
    (t : TiingoOutcome) (g : GeminiOutcome)
    (h : pyTruthy ((List.lookup "symbol" fields).getD .null) = true) :
    (get_stock_info k (.obj fields) t g).tiingoRequest =
      some ⟨"GET", tiingoUrlFor k ((List.lookup "symbol" fields).getD .null), []⟩ := by
  simp only [get_stock_info, h, Bool.not_true, Bool.false_eq_true, if_false]
  cases t with
  | transportError m => rfl
  | response st body =>
    by_cases hst : 400 ≤ st ∧ st < 600
    · simp [hst]
    · simp only [if_neg hst]
      cases body with
      | none => rfl
      | some l =>
        by_cases hl : pyTruthy l = true
        · simp only [hl, Bool.not_true, Bool.false_eq_true, if_false]
          cases hpi : pyIndexZero l with
          | error e => simp [hpi]
          | ok sd =>
            simp only [hpi]
            cases hbp : buildPrompt ((List.lookup "symbol" fields).getD .null) sd with
            | error e => simp [hbp]
            | ok p =>
              simp only [hbp]
              cases g <;> rfl
        · simp [Bool.not_eq_true] at hl
          simp [hl]

/-- Whether a JSON value is a string (used to state that a record's
`date` field, when present, is a string, as the PriceRecord data model
has it). -/
def isStrB : JVal → Bool
  | .str _ => true
  | _ => false

lemma isStrB_iff (v : JVal) : isStrB v = true ↔ ∃ s, v = JVal.str s := by
  cases v <;> simp [isStrB]

/-- The full happy path after validation: truthy symbol, non-error
status, a body parsing to a non-empty list whose head is an object from
which the prompt builds; both outbound calls are issued and the result
depends on the Gemini outcome. -/
lemma get_stock_info_success (k : String) (fields rec : List (String × JVal))
    (rest : List JVal) (st : Nat) (g : GeminiOutcome) (p : String)
    (hs : pyTruthy ((List.lookup "symbol" fields).getD .null) = true)
    (hst : ¬(400 ≤ st ∧ st < 600))
    (hp : buildPrompt ((List.lookup "symbol" fields).getD .null) (JVal.obj rec) = .ok p) :
    get_stock_info k (.obj fields) (.response st (some (.arr (JVal.obj rec :: rest)))) g =
      ⟨some ⟨"GET", tiingoUrlFor k ((List.lookup "symbol" fields).getD .null), []⟩, some p,
        match g with
        | .text t => .ok ⟨200, .obj [("symbol", (List.lookup "symbol" fields).getD .null),
            ("stock_data", .obj rec), ("gemini_analysis", .str t)]⟩
        | .failure m => .ok ⟨500, errBody (unexpectedMsg m)⟩⟩ := by
  have harr : pyTruthy (JVal.arr (JVal.obj rec :: rest)) = true := by simp [pyTruthy]
  cases g with
  | text t => simp [get_stock_info, hs, hst, harr, pyIndexZero, hp]
  | failure m => simp [get_stock_info, hs, hst, harr, pyIndexZero, hp]

/-- C1: for a non-empty symbol, a successful market-data response whose
first element is a record (its `date`, if present, a string), and a
generative-gateway text, the handler replies 200 with `stock_data` the
first record verbatim, `symbol` the input symbol, and `gemini_analysis`
the gateway's text. -/
theorem C1_success_response (k s txt : String) (fields rec : List (String × JVal))
    (rest : List JVal) (st : Nat)
    (h1 : List.lookup "symbol" fields = some (.str s))
    (h2 : s ≠ "")
    (h3 : 200 ≤ st) (h4 : st < 300)
    (h5 : isStrB (dictGetD rec "date" (.str "N/A")) = true) :
    (get_stock_info k (.obj fields)
        (.response st (some (.arr (JVal.obj rec :: rest)))) (.text txt)).response =
      .ok ⟨200, .obj [("symbol", .str s), ("stock_data", .obj rec),
        ("gemini_analysis", .str txt)]⟩ := by
  have hs : pyTruthy ((List.lookup "symbol" fields).getD .null) = true := by
    simp [h1, pyTruthy, bne_iff_ne, h2]
  have hst : ¬(400 ≤ st ∧ st < 600) := by omega
  obtain ⟨ds, hd⟩ := (isStrB_iff _).mp h5
  have hbp : buildPrompt ((List.lookup "symbol" fields).getD .null) (JVal.obj rec) =
      .ok (promptText s (pySplitHead ds 'T')
        (pyStr (dictGetD rec "close" (.str "N/A")))
        (pyStr (dictGetD rec "high" (.str "N/A")))
        (pyStr (dictGetD rec "low" (.str "N/A")))
        (pyStr (dictGetD rec "volume" (.str "N/A")))) := by
    rw [h1, Option.getD_some]
    simp [buildPrompt, hd, pyStr]
  rw [get_stock_info_success k fields rec rest st (.text txt) _ hs hst hbp]
  simp [h1]

/-- Witness for C1 at the spec's end-to-end example shape. -/
theorem C1_witness :
    (get_stock_info "K" (.obj [("symbol", .str "AAPL")])
      (.response 200 (some (.arr [JVal.obj
        [("date", .str "2024-05-01T00:00:00Z"), ("close", .num 189),
         ("high", .num 191), ("low", .num 188), ("volume", .num 50000000)]])))
      (.text "analysis")).response =
    .ok ⟨200, .obj [("symbol", .str "AAPL"),
      ("stock_data", .obj [("date", .str "2024-05-01T00:00:00Z"), ("close", .num 189),
        ("high", .num 191), ("low", .num 188), ("volume", .num 50000000)]),
      ("gemini_analysis", .str "analysis")]⟩ :=
  C1_success_response "K" "AAPL" "analysis" _ _ _ 200 rfl (by decide) (by decide) (by decide) rfl

/-- C2: when the market-data gateway answers with an error status
(400-599, exactly what `raise_for_status` raises on), the handler
propagates that status and picks the invalid-key message for 401, the
generic fetch-failure message otherwise. -/
theorem C2_upstream_error (k : String) (fields : List (String × JVal)) (v : JVal)
    (st : Nat) (body : Option JVal) (g : GeminiOutcome)
    (h1 : List.lookup "symbol" fields = some v) (h2 : pyTruthy v = true)
    (h3 : 400 ≤ st) (h4 : st < 600) :
    (get_stock_info k (.obj fields) (.response st body) g).response =
      .ok ⟨st, errBody (if st = 401 then authFailMsg else fetchFailMsg)⟩ := by
  have hs : pyTruthy ((List.lookup "symbol" fields).getD .null) = true := by
    rw [h1, Option.getD_some]; exact h2
  have hst : 400 ≤ st ∧ st < 600 := ⟨h3, h4⟩
  simp [get_stock_info, hs, hst]

/-- Witness for C2 at upstream status 401. -/
theorem C2_witness :
    (get_stock_info "K" (.obj [("symbol", .str "AAPL")]) (.response 401 none)
        (.text "t")).response =
      .ok ⟨401, errBody (if 401 = 401 then authFailMsg else fetchFailMsg)⟩ :=
  C2_upstream_error "K" _ (.str "AAPL") 401 none (.text "t") rfl rfl (by decide) (by decide)

/-- C3: a JSON-object body with no `symbol` field, or with the empty
string, yields 400 with the fixed message, and neither outbound call is
issued (the whole trace is the 400 response). -/
theorem C3_missing_symbol (k : String) (fields : List (String × JVal))
    (t : TiingoOutcome) (g : GeminiOutcome)
    (h : List.lookup "symbol" fields = none ∨
         List.lookup "symbol" fields = some (.str "")) :
    get_stock_info k (.obj fields) t g =
      ⟨none, none, .ok ⟨400, errBody missingSymbolMsg⟩⟩ := by
  have hs : pyTruthy ((List.lookup "symbol" fields).getD .null) = false := by
    rcases h with h | h <;> simp [h, pyTruthy]
  simp [get_stock_info, hs]

/-- Witness for C3: empty request object. -/
theorem C3_witness :
    get_stock_info "K" (.obj []) (.response 200 (some (.arr []))) (.text "t") =
      ⟨none, none, .ok ⟨400, errBody missingSymbolMsg⟩⟩ :=
  C3_missing_symbol "K" [] _ _ (Or.inl rfl)

/-- C4: a successful upstream status with an empty JSON list yields 404;
the message names the unresolved symbol and suggests example formats,
and the generative gateway is never called. -/
theorem C4_empty_list (k s : String) (fields : List (String × JVal)) (st : Nat)
    (g : GeminiOutcome)
    (h1 : List.lookup "symbol" fields = some (.str s)) (h2 : s ≠ "")
    (h3 : 200 ≤ st) (h4 : st < 300) :
    (get_stock_info k (.obj fields) (.response st (some (.arr []))) g).response =
      .ok ⟨404, errBody (noDataMsg s)⟩ ∧
    (get_stock_info k (.obj fields) (.response st (some (.arr []))) g).geminiPrompt = none ∧
    strContains (noDataMsg s) s ∧
    strContains (noDataMsg s) "\x27AAPL\x27 or \x27TCS.NS\x27" := by
  have hs : pyTruthy ((List.lookup "symbol" fields).getD .null) = true := by
    simp [h1, pyTruthy, bne_iff_ne, h2]
  have hst : ¬(400 ≤ st ∧ st < 600) := by omega
  have hempty : pyTruthy (JVal.arr []) = false := by simp [pyTruthy]
  have hs' : pyTruthy (JVal.str s) = true := by simp [pyTruthy, bne_iff_ne, h2]
  refine ⟨?_, ?_, ?_, ?_⟩
  · simp [get_stock_info, h1, hs', hst, hempty, pyStr]
  · simp [get_stock_info, hs, hst, hempty]
  · exact ⟨"No data found for symbol \x27",
      "\x27. Please check the symbol (e.g., \x27AAPL\x27 or \x27TCS.NS\x27).", rfl⟩
  · refine ⟨"No data found for symbol \x27" ++ (s ++ "\x27. Please check the symbol (e.g., "),
      ").", ?_⟩
    show noDataMsg s = _
    rw [String.append_assoc, String.append_assoc]
    congr 2

/-- Witness for C4. -/
theorem C4_witness :
    (get_stock_info "K" (.obj [("symbol", .str "XYZ")]) (.response 200 (some (.arr [])))
        (.text "t")).response = .ok ⟨404, errBody (noDataMsg "XYZ")⟩ ∧
    (get_stock_info "K" (.obj [("symbol", .str "XYZ")]) (.response 200 (some (.arr [])))
        (.text "t")).geminiPrompt = none ∧
    strContains (noDataMsg "XYZ") "XYZ" ∧
    strContains (noDataMsg "XYZ") "\x27AAPL\x27 or \x27TCS.NS\x27" :=
  C4_empty_list "K" "XYZ" _ 200 (.text "t") rfl (by decide) (by decide) (by decide)

lemma strContains_here (x m r : String) : strContains (x ++ (m ++ r)) m := ⟨x, r, rfl⟩

lemma strContains_appendLeft (x : String) {y m : String} (h : strContains y m) :
    strContains (x ++ y) m := by
  obtain ⟨l, r, rfl⟩ := h
  exact ⟨x ++ l, r, by rw [String.append_assoc]⟩

/-- Every interpolated slot of the prompt template occurs verbatim in
the constructed prompt. -/
lemma promptText_contains_all (a b c d e f : String) :
    strContains (promptText a b c d e f) a ∧
    strContains (promptText a b c d e f) b ∧
    strContains (promptText a b c d e f) c ∧
    strContains (promptText a b c d e f) d ∧
    strContains (promptText a b c d e f) e ∧
    strContains (promptText a b c d e f) f := by
  unfold promptText
  refine ⟨?_, ?_, ?_, ?_, ?_, ?_⟩ <;>
    repeat (first | exact strContains_here _ _ _ | apply strContains_appendLeft)

/-- C5: on the happy path the prompt sent to the generative gateway
embeds the literal symbol, the truncated date, and the rendered close,
high, low and volume values, with the placeholder `N/A` standing in for
absent fields. -/
theorem C5_prompt_contents (k s d cS hS lS vS P : String)
    (fields rec : List (String × JVal)) (rest : List JVal) (st : Nat) (g : GeminiOutcome)
    (h1 : List.lookup "symbol" fields = some (.str s)) (h2 : s ≠ "")
    (h3 : 200 ≤ st) (h4 : st < 300)
    (hd : dictGetD rec "date" (.str "N/A") = .str d)
    (hc : cS = pyStr (dictGetD rec "close" (.str "N/A")))
    (hh : hS = pyStr (dictGetD rec "high" (.str "N/A")))
    (hl : lS = pyStr (dictGetD rec "low" (.str "N/A")))
    (hv : vS = pyStr (dictGetD rec "volume" (.str "N/A")))
    (hP : P = promptText s (pySplitHead d 'T') cS hS lS vS) :
    (get_stock_info k (.obj fields)
        (.response st (some (.arr (JVal.obj rec :: rest)))) g).geminiPrompt = some P ∧
    strContains P s ∧
    strContains P (pySplitHead d 'T') ∧
    strContains P cS ∧ strContains P hS ∧ strContains P lS ∧ strContains P vS ∧
    (List.lookup "close" rec = none → cS = "N/A") ∧
    (List.lookup "high" rec = none → hS = "N/A") ∧
    (List.lookup "low" rec = none → lS = "N/A") ∧
    (List.lookup "volume" rec = none → vS = "N/A") := by
  subst hc hh hl hv hP
  have hs : pyTruthy ((List.lookup "symbol" fields).getD .null) = true := by
    simp [h1, pyTruthy, bne_iff_ne, h2]
  have hst : ¬(400 ≤ st ∧ st < 600) := by omega
  have hbp : buildPrompt ((List.lookup "symbol" fields).getD .null) (JVal.obj rec) =
      .ok (promptText s (pySplitHead d 'T')
        (pyStr (dictGetD rec "close" (.str "N/A")))
        (pyStr (dictGetD rec "high" (.str "N/A")))
        (pyStr (dictGetD rec "low" (.str "N/A")))
        (pyStr (dictGetD rec "volume" (.str "N/A")))) := by
    rw [h1, Option.getD_some]
    simp [buildPrompt, hd, pyStr]
  have hcont := promptText_contains_all s (pySplitHead d 'T')
    (pyStr (dictGetD rec "close" (.str "N/A")))
    (pyStr (dictGetD rec "high" (.str "N/A")))
    (pyStr (dictGetD rec "low" (.str "N/A")))
    (pyStr (dictGetD rec "volume" (.str "N/A")))
  refine ⟨?_, hcont.1, hcont.2.1, hcont.2.2.1, hcont.2.2.2.1, hcont.2.2.2.2.1,
    hcont.2.2.2.2.2, ?_, ?_, ?_, ?_⟩
  · rw [get_stock_info_success k fields rec rest st g _ hs hst hbp]
  · intro h; simp [dictGetD, h, pyStr]
  · intro h; simp [dictGetD, h, pyStr]
  · intro h; simp [dictGetD, h, pyStr]
  · intro h; simp [dictGetD, h, pyStr]

/-- Witness for C5: `high`, `low`, `volume` absent from the record. -/
theorem C5_witness :
    (get_stock_info "K" (.obj [("symbol", .str "AAPL")])
        (.response 200 (some (.arr [JVal.obj
          [("date", .str "2024-05-01T00:00:00Z"), ("close", .num 189)]])))
        (.text "t")).geminiPrompt =
      some (promptText "AAPL" (pySplitHead "2024-05-01T00:00:00Z" 'T')
        "189" "N/A" "N/A" "N/A") ∧
    strContains (promptText "AAPL" (pySplitHead "2024-05-01T00:00:00Z" 'T')
      "189" "N/A" "N/A" "N/A") "AAPL" ∧
    strContains (promptText "AAPL" (pySplitHead "2024-05-01T00:00:00Z" 'T')
      "189" "N/A" "N/A" "N/A") (pySplitHead "2024-05-01T00:00:00Z" 'T') ∧
    strContains (promptText "AAPL" (pySplitHead "2024-05-01T00:00:00Z" 'T')
      "189" "N/A" "N/A" "N/A") "189" ∧
    strContains (promptText "AAPL" (pySplitHead "2024-05-01T00:00:00Z" 'T')
      "189" "N/A" "N/A" "N/A") "N/A" ∧
    strContains (promptText "AAPL" (pySplitHead "2024-05-01T00:00:00Z" 'T')
      "189" "N/A" "N/A" "N/A") "N/A" ∧
    strContains (promptText "AAPL" (pySplitHead "2024-05-01T00:00:00Z" 'T')
      "189" "N/A" "N/A" "N/A") "N/A" ∧
    (List.lookup "close" [("date", JVal.str "2024-05-01T00:00:00Z"), ("close", JVal.num 189)] =
        none → "189" = "N/A") ∧
    (List.lookup "high" [("date", JVal.str "2024-05-01T00:00:00Z"), ("close", JVal.num 189)] =
        none → "N/A" = "N/A") ∧
    (List.lookup "low" [("date", JVal.str "2024-05-01T00:00:00Z"), ("close", JVal.num 189)] =
        none → "N/A" = "N/A") ∧
    (List.lookup "volume" [("date", JVal.str "2024-05-01T00:00:00Z"), ("close", JVal.num 189)] =
        none → "N/A" = "N/A") :=
  C5_prompt_contents "K" "AAPL" "2024-05-01T00:00:00Z" "189" "N/A" "N/A" "N/A"
    (promptText "AAPL" (pySplitHead "2024-05-01T00:00:00Z" 'T') "189" "N/A" "N/A" "N/A")
    [("symbol", .str "AAPL")]
    [("date", .str "2024-05-01T00:00:00Z"), ("close", .num 189)] [] 200 (.text "t")
    rfl (by decide) (by decide) (by decide) rfl rfl rfl rfl rfl rfl

/-- C10: the date slot of the prompt is exactly the prefix of the
record's date string before its first `T`; with no `T` present the whole
string is embedded, and with the field absent the placeholder `N/A`
is embedded. -/
theorem C10_date_truncation (sym : JVal) (rec : List (String × JVal)) (ds : String) :
    (List.lookup "date" rec = some (.str ds) →
      buildPrompt sym (.obj rec) =
        .ok (promptText (pyStr sym)
          (String.mk (ds.data.takeWhile (fun x => x != 'T')))
          (pyStr (dictGetD rec "close" (.str "N/A")))
          (pyStr (dictGetD rec "high" (.str "N/A")))
          (pyStr (dictGetD rec "low" (.str "N/A")))
          (pyStr (dictGetD rec "volume" (.str "N/A")))) ∧
      (ds.data.all (fun x => x != 'T') = true →
        String.mk (ds.data.takeWhile (fun x => x != 'T')) = ds)) ∧
    (List.lookup "date" rec = none →
      buildPrompt sym (.obj rec) =
        .ok (promptText (pyStr sym) "N/A"
          (pyStr (dictGetD rec "close" (.str "N/A")))
          (pyStr (dictGetD rec "high" (.str "N/A")))
          (pyStr (dictGetD rec "low" (.str "N/A")))
          (pyStr (dictGetD rec "volume" (.str "N/A"))))) := by
  constructor
  · intro h
    constructor
    · simp [buildPrompt, dictGetD, h, pySplitHead_eq_takeWhile]
    · intro hall
      rw [takeWhile_of_all _ _ hall]
  · intro h
    simp [buildPrompt, dictGetD, h,
      show pySplitHead "N/A" 'T' = "N/A" from rfl]

/-- Witness for C10: a date with a time-of-day part, and one without. -/
theorem C10_witness :
    buildPrompt (.str "AAPL") (.obj [("date", JVal.str "2024-05-01T00:00:00Z")]) =
      .ok (promptText (pyStr (.str "AAPL"))
        (String.mk ("2024-05-01T00:00:00Z".data.takeWhile (fun x => x != 'T')))
        (pyStr (dictGetD [("date", JVal.str "2024-05-01T00:00:00Z")] "close" (.str "N/A")))
        (pyStr (dictGetD [("date", JVal.str "2024-05-01T00:00:00Z")] "high" (.str "N/A")))
        (pyStr (dictGetD [("date", JVal.str "2024-05-01T00:00:00Z")] "low" (.str "N/A")))
        (pyStr (dictGetD [("date", JVal.str "2024-05-01T00:00:00Z")] "volume" (.str "N/A")))) ∧
    String.mk ("2024-05-01".data.takeWhile (fun x => x != 'T')) = "2024-05-01" :=
  ⟨((C10_date_truncation (.str "AAPL") [("date", JVal.str "2024-05-01T00:00:00Z")]
      "2024-05-01T00:00:00Z").1 rfl).1,
   ((C10_date_truncation (.str "A") [("date", JVal.str "2024-05-01")] "2024-05-01").1
      rfl).2 (by decide)⟩

/-- C6 counterexample: the claim says every exception is caught by the
handler and mapped to a status-500 JSON body, with no error ever
propagating.  But `request.json` / `data.get("symbol")` run at app.py
lines 34-35, before the `try` block that starts at line 43: for a
request whose JSON body is the array `[1]`, `data.get` raises
`AttributeError`, which escapes the handler uncaught instead of
becoming a 500 JSON response. -/
theorem C6_counterexample :
    (get_stock_info "K" (.arr [.num 1])
        (.response 200 (some (.arr [JVal.obj []]))) (.text "t")).response =
      .error (.attributeError "get") := rfl

/-- For a JSON-object request body, no exception escapes the handler:
every branch after the symbol lookup produces a Flask response. -/
lemma get_stock_info_obj_isOk (k : String) (fields : List (String × JVal))
    (t : TiingoOutcome) (g : GeminiOutcome) :
    ∃ r, (get_stock_info k (.obj fields) t g).response = .ok r := by
  by_cases hs : pyTruthy ((List.lookup "symbol" fields).getD .null) = true
  · simp only [get_stock_info, hs, Bool.not_true, Bool.false_eq_true, if_false]
    cases t with
    | transportError m => exact ⟨_, rfl⟩
    | response st body =>
      by_cases hst : 400 ≤ st ∧ st < 600
      · simp only [if_pos hst]; exact ⟨_, rfl⟩
      · simp only [if_neg hst]
        cases body with
        | none => exact ⟨_, rfl⟩
        | some l =>
          by_cases hl : pyTruthy l = true
          · simp only [hl, Bool.not_true, Bool.false_eq_true, if_false]
            rcases hpi : pyIndexZero l with e | sd
            · simp only [hpi]; exact ⟨_, rfl⟩
            · simp only [hpi]
              rcases hbp : buildPrompt ((List.lookup "symbol" fields).getD .null) sd with e | p
              · simp only [hbp]; exact ⟨_, rfl⟩
              · simp only [hbp]
                cases g with
                | text tt => exact ⟨_, rfl⟩
                | failure m => exact ⟨_, rfl⟩
          · rw [Bool.not_eq_true] at hl
            refine ⟨⟨404, errBody (noDataMsg (pyStr ((List.lookup "symbol" fields).getD
              .null)))⟩, ?_⟩
            simp [hl]
  · rw [Bool.not_eq_true] at hs
    refine ⟨⟨400, errBody missingSymbolMsg⟩, ?_⟩
    simp [get_stock_info, hs]

/-- C6 as amended: exceptions raised inside the `try` block (transport
failures, malformed payloads, generative-gateway failures) are caught
and mapped to a status-500 JSON response whose message includes the
underlying failure description; for a JSON-object request body no error
escapes the handler.  (Non-object bodies still raise before the `try`,
see the counterexample.) -/
theorem C6_amended_catch (k : String) (fields : List (String × JVal))
    (t : TiingoOutcome) (g : GeminiOutcome) :
    (∃ r, (get_stock_info k (.obj fields) t g).response = .ok r) ∧
    (∀ v m, List.lookup "symbol" fields = some v → pyTruthy v = true →
      t = .transportError m →
      (get_stock_info k (.obj fields) t g).response =
        .ok ⟨500, errBody (unexpectedMsg m)⟩) ∧
    (∀ p m, g = .failure m →
      (get_stock_info k (.obj fields) t g).geminiPrompt = some p →
      (get_stock_info k (.obj fields) t g).response =
        .ok ⟨500, errBody (unexpectedMsg m)⟩) := by
  refine ⟨get_stock_info_obj_isOk k fields t g, ?_, ?_⟩
  · intro v m h1 h2 h3
    subst h3
    have hs : pyTruthy ((List.lookup "symbol" fields).getD .null) = true := by
      rw [h1, Option.getD_some]; exact h2
    simp [get_stock_info, hs]
  · intro p m hg hp
    subst hg
    by_cases hs : pyTruthy ((List.lookup "symbol" fields).getD .null) = true
    · simp only [get_stock_info, hs, Bool.not_true, Bool.false_eq_true, if_false] at hp ⊢
      cases t with
      | transportError m' => simp at hp
      | response st body =>
        by_cases hst : 400 ≤ st ∧ st < 600
        · simp only [if_pos hst] at hp
          exact Option.noConfusion hp
        · simp only [if_neg hst] at hp ⊢
          cases body with
          | none => simp at hp
          | some l =>
            by_cases hl : pyTruthy l = true
            · simp only [hl, Bool.not_true, Bool.false_eq_true, if_false] at hp ⊢
              rcases hpi : pyIndexZero l with e | sd
              · simp only [hpi] at hp
                exact Option.noConfusion hp
              · simp only [hpi] at hp ⊢
                rcases hbp : buildPrompt ((List.lookup "symbol" fields).getD .null) sd
                  with e | p'
                · simp only [hbp] at hp
                  exact Option.noConfusion hp
                · simp only [hbp] at hp ⊢
                  try rfl
            · rw [Bool.not_eq_true] at hl
              simp [hl] at hp
    · rw [Bool.not_eq_true] at hs
      simp [get_stock_info, hs] at hp

/-- Witness for C6 (amended): a transport failure is caught and its
description surfaces in the 500 body; the object body is always `.ok`. -/
theorem C6_witness :
    (get_stock_info "K" (.obj [("symbol", .str "AAPL")]) (.transportError "boom")
        (.text "t")).response = .ok ⟨500, errBody (unexpectedMsg "boom")⟩ :=
  (C6_amended_catch "K" [("symbol", .str "AAPL")] (.transportError "boom")
    (.text "t")).2.1 (.str "AAPL") "boom" rfl rfl rfl

/-- The handler's response is the same whatever the configured Tiingo
key: per-request handling never re-checks or branches on the key (the
key only reaches the outbound URL). -/
lemma response_key_independent (k₁ k₂ : String) (req : JVal)
    (t : TiingoOutcome) (g : GeminiOutcome) :
    (get_stock_info k₁ req t g).response = (get_stock_info k₂ req t g).response := by
  cases req with
  | obj fields =>
    by_cases hs : pyTruthy ((List.lookup "symbol" fields).getD .null) = true
    · simp only [get_stock_info, hs, Bool.not_true, Bool.false_eq_true, if_false]
      cases t with
      | transportError m => rfl
      | response st body =>
        by_cases hst : 400 ≤ st ∧ st < 600
        · simp only [if_pos hst]
        · simp only [if_neg hst]
          cases body with
          | none => rfl
          | some l =>
            by_cases hl : pyTruthy l = true
            · simp only [hl, Bool.not_true, Bool.false_eq_true, if_false]
              rcases hpi : pyIndexZero l with e | sd
              · simp only [hpi]
              · simp only [hpi]
                rcases hbp : buildPrompt ((List.lookup "symbol" fields).getD .null) sd
                  with e | p
                · simp only [hbp]
                · simp only [hbp]
                  cases g <;> rfl
            · rw [Bool.not_eq_true] at hl
              simp [hl]
    · rw [Bool.not_eq_true] at hs
      simp [get_stock_info, hs]
  | null => rfl
  | bool b => rfl
  | num q => rfl
  | str s => rfl
  | arr xs => rfl

/-- C7: startup refuses to run when either key is absent from the
environment (lines 15-20 raise before any request is served), and the
per-request handler's response never depends on the key value - key
presence is checked once at initialization, never per request. -/
theorem C7_failfast_startup (te ge : Option String)
    (h : te = none ∨ ge = none) :
    (∃ m, startupCheck te ge = .error m) ∧
    ∀ (k₁ k₂ : String) (req : JVal) (t : TiingoOutcome) (g : GeminiOutcome),
      (get_stock_info k₁ req t g).response = (get_stock_info k₂ req t g).response := by
  constructor
  · refine ⟨"API keys for Tiingo or Gemini not found. Please check your .env file.", ?_⟩
    rcases h with h | h <;> subst h <;> simp [startupCheck, pyStrOptTruthy]
  · intro k₁ k₂ req t g
    exact response_key_independent k₁ k₂ req t g

/-- Witness for C7: Tiingo key absent. -/
theorem C7_witness :
    (∃ m, startupCheck none (some "G") = .error m) ∧
    (get_stock_info "K1" (.obj [("symbol", .str "AAPL")]) (.response 401 none)
        (.text "t")).response =
      (get_stock_info "K2" (.obj [("symbol", .str "AAPL")]) (.response 401 none)
        (.text "t")).response :=
  ⟨(C7_failfast_startup none (some "G") (Or.inl rfl)).1,
   (C7_failfast_startup none (some "G") (Or.inl rfl)).2 "K1" "K2" _ _ _⟩

/-- C8: for a non-empty symbol the outbound market-data request is a GET
on `https://api.tiingo.com/tiingo/daily/{symbol}/prices?token={key}` -
the key rides in the query string - and carries no caller-supplied
headers at all (in particular no Authorization header). -/
theorem C8_outbound_url (k s : String) (fields : List (String × JVal))
    (t : TiingoOutcome) (g : GeminiOutcome)
    (h1 : List.lookup "symbol" fields = some (.str s)) (h2 : s ≠ "") :
    (get_stock_info k (.obj fields) t g).tiingoRequest =
      some ⟨"GET",
        "https://api.tiingo.com/tiingo/daily/" ++ (s ++ ("/prices?token=" ++ k)), []⟩ := by
  have hs : pyTruthy ((List.lookup "symbol" fields).getD .null) = true := by
    simp [h1, pyTruthy, bne_iff_ne, h2]
  rw [tiingoRequest_of_truthy k fields t g hs, h1]
  simp [tiingoUrlFor, pyStr]

/-- Witness for C8. -/
theorem C8_witness :
    (get_stock_info "K" (.obj [("symbol", .str "AAPL")]) (.response 200 (some (.arr [])))
        (.text "t")).tiingoRequest =
      some ⟨"GET",
        "https://api.tiingo.com/tiingo/daily/" ++ ("AAPL" ++ ("/prices?token=" ++ "K")),
        []⟩ :=
  C8_outbound_url "K" "AAPL" _ _ _ rfl (by decide)

/-- C9: the missing-symbol 400 branch is decided by Python truthiness of
the `symbol` value, not by field presence: the handler produces the
no-outbound-calls 400 trace exactly when the looked-up value (`None`
when absent) is falsy - so `null`, `false`, `0`, `""`, `[]` and `{}`
all get the same 400 response as an absent field. -/
theorem C9_falsy_symbol (k : String) (fields : List (String × JVal))
    (t : TiingoOutcome) (g : GeminiOutcome) :
    get_stock_info k (.obj fields) t g =
        ⟨none, none, .ok ⟨400, errBody missingSymbolMsg⟩⟩ ↔
      pyTruthy ((List.lookup "symbol" fields).getD .null) = false := by
  constructor
  · intro h
    by_contra hne
    rw [Bool.not_eq_false] at hne
    have hr := tiingoRequest_of_truthy k fields t g hne
    rw [h] at hr
    simp at hr
  · intro h
    simp [get_stock_info, h]

/-- Witness for C9: the number `0` as symbol value behaves like an
absent field. -/
theorem C9_witness :
    get_stock_info "K" (.obj [("symbol", .num 0)]) (.response 200 (some (.arr [])))
        (.text "t") =
      ⟨none, none, .ok ⟨400, errBody missingSymbolMsg⟩⟩ :=
  (C9_falsy_symbol "K" [("symbol", .num 0)] _ _).mpr (by decide)
